import Mathlib

/-!
Shallow embedding of the sshpiper auth-piping core (package ssh, file
src/unnamed/part_000) and of the userfile credential resolver
(src/sshpiperd/sshpiperd.go).

Machine bytes are modelled as `Nat` (each < 256 on real wires, nothing below
depends on that bound).  Packets are byte lists.  The SSH transport, message
codec and crypto primitives are external library collaborators of the code
under verification; they are modelled from the spec where noted, with doc
comments starting `Modelled from the spec:`.
-/

set_option maxHeartbeats 1000000

namespace Sshpiper

/-- A decrypted SSH packet: a list of bytes. -/
abbrev Packet := List Nat

/-- Errors surfaced by the piping core.  Concrete Go error values are
collapsed to constructors carrying what the claims need. -/
inductive SshError where
  /-- a parse error for the given SSH message number -/
  | parseError (msgNum : Nat)
  /-- `ssh: algorithm %q not accepted` from parsePublicKeyMsg -/
  | algoNotAccepted (algo : String)
  /-- read on an exhausted transport (connection closed / EOF) -/
  | readEOF
  /-- Unmarshal failure (packet of unexpected type) -/
  | unmarshalError
  /-- `client attempted to negotiate for unknown service` -/
  | unknownService (service : String)
  /-- `additional challenge failed` -/
  | challengeFailed
  /-- an error returned by a Signer's Sign operation -/
  | signError (msg : String)
  /-- "not a publickey auth msg" from parsePublicKeyMsg -/
  | notPublicKeyAuthMsg
  /-- file open / stat error in the userfile resolver -/
  | openError
  /-- `perm is too open, change it to 400` from check400 -/
  | permTooOpen
  /-- an error from an injected collaborator callback -/
  | callbackError (msg : String)
  /-- loop fuel exhausted (models a session that never terminates) -/
  | outOfFuel
  deriving DecidableEq, Repr, Inhabited

/- SSH message numbers (RFC 4250 / 4252). -/

def msgServiceRequest : Nat := 5
def msgServiceAccept : Nat := 6
def msgUserAuthRequest : Nat := 50
def msgUserAuthFailure : Nat := 51
def msgUserAuthSuccess : Nat := 52
def msgUserAuthPubKeyOk : Nat := 60

def serviceUserAuth : String := "ssh-userauth"
def serviceSSH : String := "ssh-connection"

/-- Bytes of a string (one byte per character; ASCII on real wires). -/
def strBytes (s : String) : List Nat := s.data.map Char.toNat

/-- Inverse of `strBytes` on ASCII content. -/
def bytesToString (bs : List Nat) : String := ⟨bs.map Char.ofNat⟩

/-- Big-endian 32-bit length word. -/
def u32be (n : Nat) : List Nat :=
  [n / 2 ^ 24 % 256, n / 2 ^ 16 % 256, n / 2 ^ 8 % 256, n % 256]

/-- Modelled from the spec: the codec's SSH `string` encoding
(4-byte big-endian length followed by the bytes). -/
def marshalString (bs : List Nat) : List Nat := u32be bs.length ++ bs

/-- `stringLength`/`marshalString` applied to a name. -/
def marshalName (s : String) : List Nat := marshalString (strBytes s)

/-- Modelled from the spec: the codec's `parseString` — read a 4-byte
big-endian length, then that many bytes; fail if the input is shorter. -/
def parseU32 : List Nat → Option (Nat × List Nat)
  | a :: b :: c :: d :: rest => some (((a * 256 + b) * 256 + c) * 256 + d, rest)
  | _ => none

def parseString (bs : List Nat) : Option (List Nat × List Nat) :=
  match parseU32 bs with
  | none => none
  | some (n, rest) =>
      if rest.length < n then none else some (rest.take n, rest.drop n)

/-- An SSH signature: a format name and an opaque blob. -/
structure Signature where
  format : String
  blob : List Nat
  deriving DecidableEq, Repr, Inhabited

/-- Modelled from the spec: `Marshal` of a Signature (format and blob,
each SSH-encoded). -/
def marshalSignature (s : Signature) : List Nat :=
  marshalName s.format ++ marshalString s.blob

/-- Modelled from the spec: the codec's `parseSignature` — an SSH string
wrapping a signature body (format string, blob string, no trailing bytes). -/
def parseSignature (bs : List Nat) : Option (Signature × List Nat) :=
  match parseString bs with
  | none => none
  | some (sigBytes, rest) =>
      match parseString sigBytes with
      | none => none
      | some (fmt, r1) =>
          match parseString r1 with
          | none => none
          | some (blob, r2) =>
              if r2.length ≠ 0 then none
              else some ({ format := bytesToString fmt, blob := blob }, rest)

/-- The data blob that RFC 4252 §7 signatures are computed over.  Kept as a
structure (rather than serialized bytes) so that which session identifier a
blob was built with is directly observable. -/
structure SignedData where
  session : List Nat
  user : String
  service : String
  method : String
  algo : List Nat
  pubKey : List Nat
  deriving DecidableEq, Repr

/-- The structured view of `SSH_MSG_USERAUTH_REQUEST`. -/
structure UserAuthRequestMsg where
  user : String
  service : String
  method : String
  payload : List Nat := []
  deriving DecidableEq, Repr, Inhabited

/-- Modelled from the spec: `buildDataSignedForAuth(sessionId, req, algo,
pubKey)` — the RFC 4252 signed blob over the session id, the request's user,
service and method fields, the algorithm name and the public key blob. -/
def buildDataSignedForAuth (sessionId : List Nat) (req : UserAuthRequestMsg)
    (algo pubKey : List Nat) : SignedData :=
  { session := sessionId, user := req.user, service := req.service,
    method := req.method, algo := algo, pubKey := pubKey }

/-- Modelled from the spec: a public key capability — algorithm name,
marshalled key blob, and a signature verifier (`true` means Verify
returned nil). -/
structure PublicKey where
  keyType : String
  keyData : List Nat
  verify : SignedData → Signature → Bool

/-- Modelled from the spec: a Signer capability — the backend public key and
a `Sign(rand, data)` operation that may fail. -/
structure Signer where
  publicKey : PublicKey
  sign : List Nat → SignedData → Except String Signature

/-- Modelled from the spec: one side's SSH transport after its handshake —
the immutable session identifier, the queue of packets the peer will
deliver, the log of packets written to the peer, and the config's random
source (an opaque token handed to Sign). -/
structure TransportState where
  sessionID : List Nat := []
  toRead : List Packet := []
  written : List Packet := []
  rand : List Nat := []
  deriving DecidableEq, Repr, Inhabited

/-- Modelled from the spec: `transport.writePacket` (writes always reach the
log; write failures are not modelled). -/
def writePacket (p : Packet) (t : TransportState) : TransportState :=
  { t with written := t.written ++ [p] }

/-- The piped connection: both transports plus the username recorded from
the first downstream user-auth request (`d.user`). -/
structure PipeState where
  up : TransportState := {}
  down : TransportState := {}
  downUser : String := ""
  deriving DecidableEq, Repr, Inhabited

/- Marshalling of the messages the core writes (codec, modelled from the
spec; each encoding starts with the message number byte). -/

/-- Modelled from the spec: `Marshal(&userAuthRequestMsg{...})`; the payload
field is a `rest` field, appended unframed. -/
def marshalUserAuthRequest (m : UserAuthRequestMsg) : Packet :=
  msgUserAuthRequest :: (marshalName m.user ++ marshalName m.service ++
    marshalName m.method ++ m.payload)

/-- Modelled from the spec: `Marshal(&userAuthFailureMsg{Methods: ms})`; the
name-list is comma-separated, and the final byte is the partial-success
flag, always zero here. -/
def marshalUserAuthFailure (methods : List String) : Packet :=
  msgUserAuthFailure :: (marshalName (String.intercalate "," methods) ++ [0])

/-- Modelled from the spec: `Marshal(&userAuthPubKeyOkMsg{Algo, PubKey})`. -/
def marshalPkOk (algo : String) (pubKey : List Nat) : Packet :=
  msgUserAuthPubKeyOk :: (marshalName algo ++ marshalString pubKey)

/-- Modelled from the spec: `Marshal(&serviceRequestMsg{service})`. -/
def marshalServiceRequest (service : String) : Packet :=
  msgServiceRequest :: marshalName service

/-- Modelled from the spec: decode of a `USERAUTH_REQUEST` packet, as
performed by `Unmarshal(packet, &userAuthReq)`: type byte 50, three SSH
strings, and the rest as payload. -/
def parseAuthPacket (p : Packet) : Option UserAuthRequestMsg :=
  match p with
  | [] => none
  | b :: rest =>
      if b ≠ msgUserAuthRequest then none
      else
        match parseString rest with
        | none => none
        | some (u, r1) =>
            match parseString r1 with
            | none => none
            | some (sv, r2) =>
                match parseString r2 with
                | none => none
                | some (m, r3) =>
                    some { user := bytesToString u, service := bytesToString sv,
                           method := bytesToString m, payload := r3 }

/-- Modelled from the spec: `isAcceptableAlgo` — membership in the SSH
library's standard accepted-algorithm list. -/
def acceptedAlgos : List String :=
  ["ssh-rsa", "ssh-dss", "ecdsa-sha2-nistp256", "ecdsa-sha2-nistp384",
   "ecdsa-sha2-nistp521"]

def isAcceptableAlgo (algo : String) : Bool := acceptedAlgos.contains algo

/-- The injected piper configuration plus the crypto environment.
`parsePublicKey` models the library's `ParsePublicKey`; the three
collaborator callbacks mirror `SSHPiper`'s fields, with `ConnMetadata`
reduced to the recorded username.  `findUpstream`'s outer `Except` is
`FindUpstream` failing; the inner one is the upstream client handshake of
`newUpstream` failing (which closes the freshly dialed connection). -/
structure Piper where
  parsePublicKey : List Nat → Except SshError PublicKey
  additionalChallenge : Option (String → Except SshError Bool) := none
  findUpstream : String → Except SshError (Except SshError TransportState)
  mapPublicKey : String → PublicKey → Except SshError (Option Signer)

/-- `noneAuthMsg(user)` — src/unnamed/part_000 lines 420-426. -/
def noneAuthMsg (user : String) : UserAuthRequestMsg :=
  { user := user, service := serviceSSH, method := "none" }

/-- `parsePublicKeyMsg(userAuthReq)` — src/unnamed/part_000 lines 227-266.
Returns the parsed key, the query flag (`payload[0] == 0`), and the
signature when present. -/
def parsePublicKeyMsg (parseKey : List Nat → Except SshError PublicKey)
    (userAuthReq : UserAuthRequestMsg) :
    Except SshError (PublicKey × Bool × Option Signature) :=
  if userAuthReq.method ≠ "publickey" then .error .notPublicKeyAuthMsg
  else
    let payload := userAuthReq.payload
    if payload.length < 1 then .error (.parseError msgUserAuthRequest)
    else
      let isQuery := payload.head? = some 0
      let payload := payload.tail
      match parseString payload with
      | none => .error (.parseError msgUserAuthRequest)
      | some (algoBytes, payload) =>
          let algo := bytesToString algoBytes
          if ¬ isAcceptableAlgo algo then .error (.algoNotAccepted algo)
          else
            match parseString payload with
            | none => .error (.parseError msgUserAuthRequest)
            | some (pubKeyData, payload) =>
                match parseKey pubKeyData with
                | .error e => .error e
                | .ok pubKey =>
                    if isQuery then .ok (pubKey, true, none)
                    else
                      match parseSignature payload with
                      | none => .error (.parseError msgUserAuthRequest)
                      | some (sig, payload) =>
                          if payload.length > 0 then
                            .error (.parseError msgUserAuthRequest)
                          else .ok (pubKey, false, some sig)

/-- `checkPublicKey(msg, pubkey, sig)` — src/unnamed/part_000 lines 174-186.
The signed blob is built with the DOWNSTREAM transport's session id.  Every
return path of the Go function carries a nil error, hence the `none`. -/
def checkPublicKey (pipe : PipeState) (msg : UserAuthRequestMsg)
    (pubkey : PublicKey) (sig : Signature) : Bool × Option SshError :=
  if ¬ isAcceptableAlgo sig.format then (false, none)
  else
    let signedData := buildDataSignedForAuth pipe.down.sessionID msg
      (strBytes pubkey.keyType) pubkey.keyData
    if pubkey.verify signedData sig then (true, none) else (false, none)

/-- Result of `signAgain` as a value: the rewritten request or a (dropped —
see `processAuthMsg`) error. -/
def pubkeyAuthMsgPayload (hasSig : Bool) (algoname : String)
    (pubKey sig : List Nat) : List Nat :=
  (if hasSig then [1] else [0]) ++ marshalName algoname ++
    marshalString pubKey ++ sig

/-- `signAgain(msg, signer, downKey)` — src/unnamed/part_000 lines 188-225.
The signed blob is built with the UPSTREAM transport's session id and the
upstream config's random source; `downKey` is received but never used, as in
the source.  The final `Unmarshal(Marshal(pubkeyMsg), msg)` round-trip is
modelled by building the `userAuthRequestMsg` view of `publickeyAuthMsg`
directly: same user/service/method, payload = has-sig byte, algorithm name,
key blob, then the wrapped signature as a rest field. -/
def signAgain (pipe : PipeState) (msg : UserAuthRequestMsg) (signer : Signer)
    (downKey : PublicKey) : Option UserAuthRequestMsg × Option SshError :=
  let user := pipe.downUser
  let rand := pipe.up.rand
  let session := pipe.up.sessionID
  let upKey := signer.publicKey
  let upKeyData := upKey.keyData
  match signer.sign rand (buildDataSignedForAuth session
      { user := user, service := serviceSSH, method := "publickey" }
      (strBytes upKey.keyType) upKeyData) with
  | .error e => (none, some (.signError e))
  | .ok sign =>
      -- manually wrap the serialized signature in a string
      let sig := marshalString (marshalSignature sign)
      (some { user := user, service := serviceSSH, method := "publickey",
              payload := pubkeyAuthMsgPayload true upKey.keyType upKeyData sig },
       none)

/-- Modelled from the spec: the library's `validateKey(key, user,
transport)` (§4.4.1) — write upstream a publickey request for `key` with
has-signature=false, read one reply; `USERAUTH_PK_OK` means accepted,
`USERAUTH_FAILURE` means not accepted, anything else (or EOF) is an error.
Returns (accepted, error, transport after the probe). -/
def validateKey (key : PublicKey) (user : String) (t : TransportState) :
    Bool × Option SshError × TransportState :=
  let query : UserAuthRequestMsg :=
    { user := user, service := serviceSSH, method := "publickey",
      payload := pubkeyAuthMsgPayload false key.keyType key.keyData [] }
  let t := writePacket (marshalUserAuthRequest query) t
  match t.toRead with
  | [] => (false, some .readEOF, t)
  | reply :: rest =>
      let t := { t with toRead := rest }
      if reply.head? = some msgUserAuthPubKeyOk then (true, none, t)
      else if reply.head? = some msgUserAuthFailure then (false, none, t)
      else (false, some .unmarshalError, t)

/-- `validAndAck(upKey, downKey)` — src/unnamed/part_000 lines 153-172.
When the upstream accepts `upKey`, a `USERAUTH_PK_OK` carrying DOWNKEY's
algorithm and blob is written to the downstream and (nil, nil) is returned;
otherwise a none-method request is returned.  As in the source, the error
from `validateKey` is consulted only through `ok`. -/
def validAndAck (pipe : PipeState) (upKey downKey : PublicKey) :
    Option UserAuthRequestMsg × Option SshError × PipeState :=
  let user := pipe.downUser
  let (ok, _err, up) := validateKey upKey user pipe.up
  let pipe := { pipe with up := up }
  if ok then
    let okMsg := marshalPkOk downKey.keyType downKey.keyData
    (none, none, { pipe with down := writePacket okMsg pipe.down })
  else (some (noneAuthMsg user), none, pipe)

/-- The `processAuthMsg` closure installed in `Serve` — src/unnamed/part_000
lines 96-142.  Returns (request-or-nil, error-or-nil, state). -/
def processAuthMsg (piper : Piper) (pipe : PipeState)
    (msg : UserAuthRequestMsg) :
    Option UserAuthRequestMsg × Option SshError × PipeState :=
  -- only public msg need
  if msg.method ≠ "publickey" then (some msg, none, pipe)
  else
    let user := msg.user
    match parsePublicKeyMsg piper.parsePublicKey msg with
    | .error e => (none, some e, pipe)
    | .ok (downKey, isQuery, sig) =>
        -- no mapped user: change it to none; likewise when an error occurs
        match piper.mapPublicKey pipe.downUser downKey with
        | .error _ => (some (noneAuthMsg user), none, pipe)
        | .ok none => (some (noneAuthMsg user), none, pipe)
        | .ok (some signer) =>
            let upKey := signer.publicKey
            if isQuery then
              match validAndAck pipe upKey downKey with
              | (_, some e, pipe) => (none, some e, pipe)
              | (m, none, pipe) => (m, none, pipe)
            else
              match checkPublicKey pipe msg downKey (sig.getD default) with
              | (_, some e) => (none, some e, pipe)
              | (ok, none) =>
                  if ¬ ok then (some (noneAuthMsg user), none, pipe)
                  else
                    -- In the source the err receiving signAgain's result is
                    -- the one declared with := inside the else block; the
                    -- err tested after the branch is the outer (nil) one,
                    -- so a signAgain error is dropped and its nil message
                    -- is returned with a nil error.
                    let (m2, _e2) := signAgain pipe msg signer downKey
                    (m2, none, pipe)

/-- `downstream.nextAuthMsg()` — src/unnamed/part_000 lines 404-418: read a
packet, decode it as a user-auth request, and reject services other than
ssh-connection. -/
def nextAuthMsg (t : TransportState) :
    Except SshError (UserAuthRequestMsg × TransportState) :=
  match t.toRead with
  | [] => .error .readEOF
  | p :: rest =>
      match parseAuthPacket p with
      | none => .error .unmarshalError
      | some req =>
          if req.service ≠ serviceSSH then .error (.unknownService req.service)
          else .ok (req, { t with toRead := rest })

/-- Outcome of one iteration of the `pipeAuth` loop body. -/
inductive StepResult where
  | success (pipe : PipeState)
  | failed (e : SshError) (pipe : PipeState)
  | next (msg : UserAuthRequestMsg) (pipe : PipeState)
  deriving DecidableEq, Repr

/-- The piped-connection state carried by a step outcome. -/
def StepResult.state : StepResult → PipeState
  | .success p => p
  | .failed _ p => p
  | .next _ p => p

/-- The bottom of the `pipeAuth` loop — src/unnamed/part_000 lines 345-348:
read the next user-auth request from the downstream. -/
def readNextDown (pipe : PipeState) : StepResult :=
  match nextAuthMsg pipe.down with
  | .error e => .failed e pipe
  | .ok (m, down) => .next m { pipe with down := down }

/-- One iteration of the `pipeAuth` loop — src/unnamed/part_000 lines
314-350: hook the message; on error fail; on nil skip the upstream
round-trip; otherwise write the request upstream, read exactly one reply,
relay it downstream, succeed when its first byte is `USERAUTH_SUCCESS`. -/
def pipeAuthStep (piper : Piper) (pipe : PipeState)
    (msg : UserAuthRequestMsg) : StepResult :=
  match processAuthMsg piper pipe msg with
  | (_, some e, pipe) => .failed e pipe
  | (some m, none, pipe) =>
      let up := writePacket (marshalUserAuthRequest m) pipe.up
      match up.toRead with
      | [] => .failed .readEOF { pipe with up := up }
      | packet :: rest =>
          let pipe := { pipe with up := { up with toRead := rest } }
          let success := packet.head? = some msgUserAuthSuccess
          let pipe := { pipe with down := writePacket packet pipe.down }
          if success then .success pipe else readNextDown pipe
  | (none, none, pipe) => readNextDown pipe

/-- The `pipeAuth` loop, fuelled (the Go loop is unbounded). -/
def pipeAuthLoop (piper : Piper) :
    Nat → PipeState → UserAuthRequestMsg → Option SshError × PipeState
  | 0, pipe, _ => (some .outOfFuel, pipe)
  | fuel + 1, pipe, msg =>
      match pipeAuthStep piper pipe msg with
      | .success pipe => (none, pipe)
      | .failed e pipe => (some e, pipe)
      | .next m pipe => pipeAuthLoop piper fuel pipe m

/-- `pipeAuth(initUserAuthMsg)` — src/unnamed/part_000 lines 306-351,
including `sendAuthReq` (lines 353-368): write the user-auth
`SERVICE_REQUEST` upstream, consume the `SERVICE_ACCEPT`, then run the
loop seeded with the initial downstream request. -/
def pipeAuth (piper : Piper) (fuel : Nat) (pipe : PipeState)
    (initMsg : UserAuthRequestMsg) : Option SshError × PipeState :=
  let up := writePacket (marshalServiceRequest serviceUserAuth) pipe.up
  match up.toRead with
  | [] => (some .readEOF, { pipe with up := up })
  | packet :: rest =>
      let pipe := { pipe with up := { up with toRead := rest } }
      if packet.head? = some msgServiceAccept then
        pipeAuthLoop piper fuel pipe initMsg
      else (some .unmarshalError, pipe)

/-- The keyboard-interactive coercion loop inside `Serve` —
src/unnamed/part_000 lines 46-64: write a `USERAUTH_FAILURE` listing only
keyboard-interactive, read the next user-auth request, break when its
method is keyboard-interactive.  The requests read are discarded (the Go
loop shadows `userAuthReq`), so only the transport state is returned. -/
def challengeLoop : Nat → TransportState → Option SshError × TransportState
  | 0, d => (some .outOfFuel, d)
  | fuel + 1, d =>
      let d := writePacket (marshalUserAuthFailure ["keyboard-interactive"]) d
      match nextAuthMsg d with
      | .error e => (some e, d)
      | .ok (req, d) =>
          if req.method = "keyboard-interactive" then (none, d)
          else challengeLoop fuel d

/-- The additional-challenge section of `Serve` — src/unnamed/part_000
lines 44-76: nothing when no challenger is configured; otherwise run the
coercion loop, then the challenger (its keyboard-interactive prompting over
the downstream is abstracted into the callback), failing the session on a
callback error or a false answer. -/
def challengePhase (piper : Piper) (fuel : Nat) (d : TransportState)
    (user : String) : Option SshError × TransportState :=
  match piper.additionalChallenge with
  | none => (none, d)
  | some chal =>
      match challengeLoop fuel d with
      | (some e, d) => (some e, d)
      | (none, d) =>
          match chal user with
          | .error e => (some e, d)
          | .ok true => (none, d)
          | .ok false => (some .challengeFailed, d)

/-- Observable outcome of `Serve`: final transports plus the resource /
event trace the temporal claims are about.  `downCloses` / `upCloses` count
Close calls on each side's connection (`d.Close`, `u.Close`, the closes
inside `newDownstream` / `newUpstream` on handshake failure, and
`pipedConn.Close`'s two closes). -/
structure ServeTrace where
  down : TransportState := {}
  up : TransportState := {}
  downUser : String := ""
  downCloses : Nat := 0
  upCloses : Nat := 0
  findCalled : Bool := false
  upObtained : Bool := false
  upHandshakeOk : Bool := false
  enteredLoop : Bool := false
  deriving DecidableEq, Repr, Inhabited

def closeDown (s : ServeTrace) : ServeTrace :=
  { s with downCloses := s.downCloses + 1 }

def closeUp (s : ServeTrace) : ServeTrace :=
  { s with upCloses := s.upCloses + 1 }

/-- `SSHPiper.Serve(conn)` — src/unnamed/part_000 lines 27-151.  The
argument `hs` is the outcome of `newDownstream` (the downstream server
handshake): on failure `newDownstream` itself closed the TCP connection.
After it succeeds, `defer d.Close()` adds one downstream close to every
return path.  The forwarding phase (`p.loop()`, lines 284-304) is
abstracted: its `defer pipe.Close()` closes both mux connections once each
and the loop returns the first piping error, modelled as `readEOF`. -/
def serve (piper : Piper) (fuel : Nat)
    (hs : Except SshError TransportState) : Option SshError × ServeTrace :=
  match hs with
  | .error e => (some e, closeDown {})
  | .ok d =>
      let s : ServeTrace := { down := d }
      match nextAuthMsg s.down with
      | .error e => (some e, closeDown s)
      | .ok (userAuthReq, d) =>
          let s := { s with down := d, downUser := userAuthReq.user }
          match challengePhase piper fuel s.down s.downUser with
          | (some e, d) => (some e, closeDown { s with down := d })
          | (none, d) =>
              let s := { s with down := d, findCalled := true }
              match piper.findUpstream s.downUser with
              | .error e => (some e, closeDown s)
              | .ok upHs =>
                  let s := { s with upObtained := true }
                  match upHs with
                  | .error e => (some e, closeDown (closeUp s))
                  | .ok u =>
                      let s := { s with up := u, upHandshakeOk := true }
                      let pipe : PipeState :=
                        { up := s.up, down := s.down, downUser := s.downUser }
                      match pipeAuth piper fuel pipe userAuthReq with
                      | (some e, pipe) =>
                          (some e, closeDown (closeUp
                            { s with up := pipe.up, down := pipe.down }))
                      | (none, pipe) =>
                          let s := { s with up := pipe.up,
                                            down := pipe.down,
                                            enteredLoop := true }
                          (some .readEOF,
                           closeDown (closeUp (closeDown (closeUp s))))

/-! The userfile credential resolver — src/sshpiperd/sshpiperd.go.  The
on-disk per-user directory is modelled per user: each of the three files is
an optional permission-bits word (`none` when `os.Open`/`Stat` fails), plus
the parsed view of its contents. -/

/-- One user's credential directory.  `authorizedKeys` is the sequence of
`ParseAuthorizedKey` outcomes the scan of the authorized_keys bytes
produces; `keyFile` is the `ParsePrivateKey` outcome for id_rsa (a read
error of a file whose permission check passed is folded into it);
`upstreamAddr`/`dial` describe sshpiper_upstream and the `net.Dial` it
leads to. -/
structure UserDir where
  authorizedKeysMode : Option Nat := none
  authorizedKeys : List (Except SshError PublicKey) := []
  keyFileMode : Option Nat := none
  keyFile : Except SshError Signer := .error .openError
  upstreamMode : Option Nat := none
  upstreamAddr : String := ""
  dial : Except SshError Unit := .error .openError

/-- `userFile.check400(user)` — src/sshpiperd/sshpiperd.go lines 57-76:
error when the file cannot be opened or stat'ed (`none`), or when its
permission bits (`Mode().Perm()`, the low nine bits) differ from 0400. -/
def check400 (mode : Option Nat) : Option SshError :=
  match mode with
  | none => some .openError
  | some m => if m % 512 ≠ 0o400 then some .permTooOpen else none

/-- The authorized_keys scan inside `mapPublicKeyFromUserfile` —
src/sshpiperd/sshpiperd.go lines 128-157: walk the `ParseAuthorizedKey`
results; a parse error aborts with that error; a marshalled-bytes match
succeeds. -/
def scanAuthorizedKeys (entries : List (Except SshError PublicKey))
    (keydata : List Nat) : Except SshError Bool :=
  match entries with
  | [] => .ok false
  | .error e :: _ => .error e
  | .ok k :: rest =>
      if k.keyData = keydata then .ok true
      else scanAuthorizedKeys rest keydata

/-- `mapPublicKeyFromUserfile(conn, key)` — src/sshpiperd/sshpiperd.go
lines 103-162: check authorized_keys is mode 0400, scan it for the
downstream key; on a hit, check id_rsa is mode 0400 and parse it into a
signer.  Any error is returned as the callback's error; a clean miss is
(nil, nil). -/
def mapPublicKeyFromUserfile (dir : UserDir) (key : PublicKey) :
    Except SshError (Option Signer) :=
  match check400 dir.authorizedKeysMode with
  | some e => .error e
  | none =>
      match scanAuthorizedKeys dir.authorizedKeys key.keyData with
      | .error e => .error e
      | .ok false => .ok none
      | .ok true =>
          match check400 dir.keyFileMode with
          | some e => .error e
          | none =>
              match dir.keyFile with
              | .error e => .error e
              | .ok signer => .ok (some signer)

/-- `findUpstreamFromUserfile(conn)` — src/sshpiperd/sshpiperd.go lines
78-101: check sshpiper_upstream is mode 0400, read the address, dial it.
The whitespace trimming and the returned net.Conn/ClientConfig are
abstracted to the address string. -/
def findUpstreamFromUserfile (dir : UserDir) : Except SshError String :=
  match check400 dir.upstreamMode with
  | some e => .error e
  | none =>
      match dir.dial with
      | .error e => .error e
      | .ok _ => .ok dir.upstreamAddr

/-- Follows the spec's words (§4.2), for comparison with `challengeLoop`:
read user-auth requests from the queue, discarding those whose method is
not keyboard-interactive, until one with method keyboard-interactive
arrives; yields the number of requests consumed and the remaining queue. -/
def coercionSpec : Nat → List Packet → Option (Nat × List Packet)
  | 0, _ => none
  | _ + 1, [] => none
  | fuel + 1, pk :: rest =>
      match parseAuthPacket pk with
      | none => none
      | some req =>
          if req.service ≠ serviceSSH then none
          else if req.method = "keyboard-interactive" then some (1, rest)
          else (coercionSpec fuel rest).map fun nr => (nr.1 + 1, nr.2)

/-! Helper lemmas shared by the claim theorems. -/

/-- Every return path of `validAndAck` carries a nil error. -/
theorem validAndAck_err_eq_none (pipe : PipeState) (upKey downKey : PublicKey) :
    (validAndAck pipe upKey downKey).2.1 = none := by
  unfold validAndAck
  by_cases h : (validateKey upKey pipe.downUser pipe.up).1 <;> simp [h]

/-- Reading the next downstream request leaves the upstream transport
untouched. -/
theorem readNextDown_up (pipe : PipeState) :
    (readNextDown pipe).state.up = pipe.up := by
  unfold readNextDown
  cases h : nextAuthMsg pipe.down <;> simp [StepResult.state]

/-- Reading the next downstream request writes nothing to the downstream. -/
theorem readNextDown_down_written (pipe : PipeState) :
    (readNextDown pipe).state.down.written = pipe.down.written := by
  unfold readNextDown nextAuthMsg
  split
  · simp [StepResult.state]
  · rename_i m down heq
    split at heq
    · exact absurd heq (by simp)
    · split at heq
      · exact absurd heq (by simp)
      · split at heq
        · exact absurd heq (by simp)
        · cases heq
          simp [StepResult.state]

/-- When the hook reports an error, the step fails with it. -/
theorem pipeAuthStep_of_err (piper : Piper) (pipe : PipeState)
    (msg : UserAuthRequestMsg) (m : Option UserAuthRequestMsg) (e : SshError)
    (p1 : PipeState) (h : processAuthMsg piper pipe msg = (m, some e, p1)) :
    pipeAuthStep piper pipe msg = .failed e p1 := by
  cases m <;> (unfold pipeAuthStep; rw [h])

/-- When the hook suppresses the round-trip, the step only reads the next
downstream request. -/
theorem pipeAuthStep_of_none (piper : Piper) (pipe : PipeState)
    (msg : UserAuthRequestMsg) (p1 : PipeState)
    (h : processAuthMsg piper pipe msg = (none, none, p1)) :
    pipeAuthStep piper pipe msg = readNextDown p1 := by
  unfold pipeAuthStep
  rw [h]

/-- Claim C1: `checkPublicKey` verifies the downstream's signature over the
signed-data blob built with the downstream transport's session identifier,
and `signAgain` has the backend signer sign a blob built with the upstream
transport's session identifier; moreover verification is independent of the
upstream transport (so the upstream session id is never used for
verification) and re-signing is independent of the downstream transport
(so the downstream session id is never used for re-signing). -/
theorem checkPublicKey_signAgain_session_ids :
    (∀ (pipe : PipeState) (msg : UserAuthRequestMsg) (key : PublicKey)
        (sig : Signature),
      checkPublicKey pipe msg key sig =
        (isAcceptableAlgo sig.format &&
          key.verify (buildDataSignedForAuth pipe.down.sessionID msg
            (strBytes key.keyType) key.keyData) sig, none))
    ∧ (∀ (pipe : PipeState) (msg : UserAuthRequestMsg) (signer : Signer)
        (downKey : PublicKey),
      signAgain pipe msg signer downKey =
        match signer.sign pipe.up.rand (buildDataSignedForAuth
            pipe.up.sessionID
            { user := pipe.downUser, service := serviceSSH,
              method := "publickey" }
            (strBytes signer.publicKey.keyType) signer.publicKey.keyData) with
        | .error e => (none, some (.signError e))
        | .ok s =>
            (some { user := pipe.downUser, service := serviceSSH,
                    method := "publickey",
                    payload := pubkeyAuthMsgPayload true
                      signer.publicKey.keyType signer.publicKey.keyData
                      (marshalString (marshalSignature s)) }, none))
    ∧ (∀ (up up' down : TransportState) (u : String)
        (msg : UserAuthRequestMsg) (key : PublicKey) (sig : Signature),
      checkPublicKey ⟨up, down, u⟩ msg key sig
        = checkPublicKey ⟨up', down, u⟩ msg key sig)
    ∧ (∀ (up down down' : TransportState) (u : String)
        (msg : UserAuthRequestMsg) (signer : Signer) (key : PublicKey),
      signAgain ⟨up, down, u⟩ msg signer key
        = signAgain ⟨up, down', u⟩ msg signer key) := by
  refine ⟨?_, ?_, ?_, ?_⟩
  · intro pipe msg key sig
    unfold checkPublicKey
    by_cases h : isAcceptableAlgo sig.format
    · by_cases hv : key.verify (buildDataSignedForAuth pipe.down.sessionID msg
          (strBytes key.keyType) key.keyData) sig <;> simp [h, hv]
    · simp [h]
  · intro pipe msg signer downKey
    rfl
  · intro up up' down u msg key sig
    rfl
  · intro up down down' u msg signer key
    rfl

/-! Concrete fixtures used by witness and counterexample theorems. -/

/-- A downstream public key whose verifier accepts everything. -/
def wDownKey : PublicKey :=
  { keyType := "ssh-rsa", keyData := [1, 2, 3], verify := fun _ _ => true }

/-- A backend public key, distinct from `wDownKey`. -/
def wUpKey : PublicKey :=
  { keyType := "ssh-rsa", keyData := [7, 7], verify := fun _ _ => true }

/-- A backend signer over `wUpKey` that always signs. -/
def wSigner : Signer :=
  { publicKey := wUpKey,
    sign := fun _ _ => .ok { format := "ssh-rsa", blob := [9] } }

/-- A backend signer over `wUpKey` whose Sign always fails. -/
def wFailSigner : Signer :=
  { publicKey := wUpKey, sign := fun _ _ => .error "sign broken" }

/-- A piped connection whose upstream will answer the next probe with
`USERAUTH_PK_OK`. -/
def wPipeC2 : PipeState :=
  { up := { sessionID := [5], toRead := [[msgUserAuthPubKeyOk]] },
    down := { sessionID := [6] },
    downUser := "alice" }

/-- Claim C2: for a publickey query mapped to a backend signer, if the
upstream accepts the backend key the piper writes the downstream a
`USERAUTH_PK_OK` carrying `downKey`'s algorithm and blob (never `upKey`'s)
and the hook returns nil, so `pipeAuth` performs no upstream write that
iteration; if the upstream does not accept, the hook returns a none-method
request. -/
theorem query_pk_ok_carries_downKey :
    (∀ (pipe : PipeState) (upKey downKey : PublicKey),
      ((validateKey upKey pipe.downUser pipe.up).1 = true →
        validAndAck pipe upKey downKey =
          (none, none,
           { pipe with up := (validateKey upKey pipe.downUser pipe.up).2.2,
                       down := writePacket
                         (marshalPkOk downKey.keyType downKey.keyData)
                         pipe.down }))
      ∧ ((validateKey upKey pipe.downUser pipe.up).1 = false →
        validAndAck pipe upKey downKey =
          (some (noneAuthMsg pipe.downUser), none,
           { pipe with up := (validateKey upKey pipe.downUser pipe.up).2.2 })))
    ∧ (∀ (piper : Piper) (pipe : PipeState) (msg : UserAuthRequestMsg)
        (downKey : PublicKey) (sig : Option Signature) (signer : Signer),
        msg.method = "publickey" →
        parsePublicKeyMsg piper.parsePublicKey msg = .ok (downKey, true, sig) →
        piper.mapPublicKey pipe.downUser downKey = .ok (some signer) →
        processAuthMsg piper pipe msg =
          ((validAndAck pipe signer.publicKey downKey).1, none,
           (validAndAck pipe signer.publicKey downKey).2.2))
    ∧ (∀ (piper : Piper) (pipe : PipeState) (msg : UserAuthRequestMsg)
        (p1 : PipeState),
        processAuthMsg piper pipe msg = (none, none, p1) →
        pipeAuthStep piper pipe msg = readNextDown p1 ∧
        (pipeAuthStep piper pipe msg).state.up.written = p1.up.written) := by
  refine ⟨?_, ?_, ?_⟩
  · intro pipe upKey downKey
    constructor
    · intro h
      rcases hv : validateKey upKey pipe.downUser pipe.up with ⟨ok, err, up⟩
      rw [hv] at h
      simp at h
      subst h
      simp [validAndAck, hv]
    · intro h
      rcases hv : validateKey upKey pipe.downUser pipe.up with ⟨ok, err, up⟩
      rw [hv] at h
      simp at h
      subst h
      simp [validAndAck, hv]
  · intro piper pipe msg downKey sig signer hm hp hmap
    unfold processAuthMsg
    rcases hva : validAndAck pipe signer.publicKey downKey with ⟨mm, ee, pp⟩
    have hee := validAndAck_err_eq_none pipe signer.publicKey downKey
    rw [hva] at hee
    simp at hee
    subst hee
    simp [hm, hp, hmap, hva]
  · intro piper pipe msg p1 h
    refine ⟨pipeAuthStep_of_none piper pipe msg p1 h, ?_⟩
    rw [pipeAuthStep_of_none piper pipe msg p1 h, readNextDown_up]

/-- Witness for C2: a concrete accepted query, with the hypothesis
discharged on a pipe whose upstream replies `USERAUTH_PK_OK`. -/
theorem query_pk_ok_carries_downKey_witness :
    (validateKey wUpKey wPipeC2.downUser wPipeC2.up).1 = true ∧
    validAndAck wPipeC2 wUpKey wDownKey =
      (none, none,
       { wPipeC2 with
         up := (validateKey wUpKey wPipeC2.downUser wPipeC2.up).2.2,
         down := writePacket (marshalPkOk wDownKey.keyType wDownKey.keyData)
           wPipeC2.down }) :=
  ⟨rfl, (query_pk_ok_carries_downKey.1 wPipeC2 wUpKey wDownKey).1 rfl⟩

/-- `readNextDown` never yields a success outcome. -/
theorem readNextDown_ne_success (pipe q : PipeState) :
    readNextDown pipe ≠ .success q := by
  unfold readNextDown
  cases h : nextAuthMsg pipe.down <;> simp

/-- Claim C4: when the hook returns a request, the piper writes exactly that
request upstream, reads exactly one reply, relays that packet unchanged to
the downstream, and succeeds iff its first byte is `USERAUTH_SUCCESS`;
when the hook returns nil, nothing is written upstream and the piper reads
the next downstream request. -/
theorem pipeAuth_relay_roundtrip :
    (∀ (piper : Piper) (pipe : PipeState) (msg m : UserAuthRequestMsg)
        (p1 : PipeState) (r : Packet) (rest : List Packet),
      processAuthMsg piper pipe msg = (some m, none, p1) →
      p1.up.toRead = r :: rest →
      ((pipeAuthStep piper pipe msg).state.up.written
          = p1.up.written ++ [marshalUserAuthRequest m]
        ∧ (pipeAuthStep piper pipe msg).state.up.toRead = rest
        ∧ (pipeAuthStep piper pipe msg).state.down.written
          = p1.down.written ++ [r]
        ∧ ((∃ q, pipeAuthStep piper pipe msg = .success q)
            ↔ r.head? = some msgUserAuthSuccess)))
    ∧ (∀ (piper : Piper) (pipe : PipeState) (msg : UserAuthRequestMsg)
        (p1 : PipeState),
      processAuthMsg piper pipe msg = (none, none, p1) →
      (pipeAuthStep piper pipe msg).state.up = p1.up ∧
      pipeAuthStep piper pipe msg = readNextDown p1) := by
  constructor
  · intro piper pipe msg m p1 r rest hproc htr
    have hstep : pipeAuthStep piper pipe msg =
        (let up2 := writePacket (marshalUserAuthRequest m) p1.up
         let pipe2 : PipeState := { p1 with up := { up2 with toRead := rest } }
         let pipe3 : PipeState := { pipe2 with down := writePacket r pipe2.down }
         if r.head? = some msgUserAuthSuccess then .success pipe3
         else readNextDown pipe3) := by
      unfold pipeAuthStep
      rw [hproc]
      simp only [writePacket, htr]
    rw [hstep]
    by_cases hr : r.head? = some msgUserAuthSuccess
    · simp [hr, StepResult.state, writePacket]
    · simp only [hr, if_false, reduceIte]
      refine ⟨?_, ?_, ?_, ?_⟩
      · rw [readNextDown_up]
        simp [writePacket]
      · rw [readNextDown_up]
      · rw [readNextDown_down_written]
        simp [writePacket]
      · simp only [hr, iff_false]
        rintro ⟨q, hq⟩
        exact readNextDown_ne_success _ q hq
  · intro piper pipe msg p1 h
    refine ⟨?_, pipeAuthStep_of_none piper pipe msg p1 h⟩
    rw [pipeAuthStep_of_none piper pipe msg p1 h, readNextDown_up]

/-- A piper whose hooks are irrelevant to the scenario at hand. -/
def wPiperPlain : Piper :=
  { parsePublicKey := fun _ => .ok wDownKey,
    findUpstream := fun _ => .error .openError,
    mapPublicKey := fun _ _ => .ok none }

/-- Witness for C4: a concrete relay iteration whose upstream reply is a
`USERAUTH_SUCCESS` packet. -/
def wPipeC4 : PipeState :=
  { up := { sessionID := [5], toRead := [[msgUserAuthSuccess]] },
    down := { sessionID := [6] },
    downUser := "alice" }

def wMsgNone : UserAuthRequestMsg :=
  { user := "alice", service := serviceSSH, method := "none" }

theorem pipeAuth_relay_roundtrip_witness :
    processAuthMsg wPiperPlain wPipeC4 wMsgNone = (some wMsgNone, none, wPipeC4)
    ∧ (pipeAuthStep wPiperPlain wPipeC4 wMsgNone).state.up.written
        = wPipeC4.up.written ++ [marshalUserAuthRequest wMsgNone]
    ∧ ((∃ q, pipeAuthStep wPiperPlain wPipeC4 wMsgNone = .success q)
        ↔ ([msgUserAuthSuccess] : Packet).head? = some msgUserAuthSuccess) :=
  ⟨rfl,
   (pipeAuth_relay_roundtrip.1 wPiperPlain wPipeC4 wMsgNone wMsgNone wPipeC4
      [msgUserAuthSuccess] [] rfl rfl).1,
   (pipeAuth_relay_roundtrip.1 wPiperPlain wPipeC4 wMsgNone wMsgNone wPipeC4
      [msgUserAuthSuccess] [] rfl rfl).2.2.2⟩

/-- Claim C5: an unmapped key (MapPublicKey returning no signer or an
error) turns the request into a none-method request for the same user over
the ssh-connection service, and that request is what the step writes
upstream. -/
theorem unmapped_key_becomes_none_request :
    ∀ (piper : Piper) (pipe : PipeState) (msg : UserAuthRequestMsg)
      (downKey : PublicKey) (q : Bool) (sig : Option Signature),
      msg.method = "publickey" →
      parsePublicKeyMsg piper.parsePublicKey msg = .ok (downKey, q, sig) →
      (piper.mapPublicKey pipe.downUser downKey = .ok none ∨
        ∃ e, piper.mapPublicKey pipe.downUser downKey = .error e) →
      processAuthMsg piper pipe msg = (some (noneAuthMsg msg.user), none, pipe)
      ∧ noneAuthMsg msg.user =
          { user := msg.user, service := serviceSSH, method := "none",
            payload := [] }
      ∧ (pipeAuthStep piper pipe msg).state.up.written =
          pipe.up.written ++ [marshalUserAuthRequest (noneAuthMsg msg.user)] := by
  intro piper pipe msg downKey q sig hm hp hmap
  have hproc : processAuthMsg piper pipe msg
      = (some (noneAuthMsg msg.user), none, pipe) := by
    rcases hmap with hmap | ⟨e, hmap⟩ <;> simp [processAuthMsg, hm, hp, hmap]
  refine ⟨hproc, rfl, ?_⟩
  have hstep := fun r rest htr =>
    (pipeAuth_relay_roundtrip.1 piper pipe msg (noneAuthMsg msg.user) pipe
      r rest hproc htr).1
  cases htr : pipe.up.toRead with
  | nil =>
      unfold pipeAuthStep
      rw [hproc]
      simp only [writePacket, htr]
      simp [StepResult.state, writePacket]
  | cons r rest => exact hstep r rest htr

/-- Witness for C5: a concrete unmapped publickey query request. -/
def wMsgQuery : UserAuthRequestMsg :=
  { user := "bob", service := serviceSSH, method := "publickey",
    payload := 0 :: (marshalName "ssh-rsa" ++ marshalString [1, 2, 3]) }

theorem unmapped_key_becomes_none_request_witness :
    parsePublicKeyMsg wPiperPlain.parsePublicKey wMsgQuery
      = .ok (wDownKey, true, none) ∧
    processAuthMsg wPiperPlain { downUser := "bob" } wMsgQuery
      = (some (noneAuthMsg "bob"), none, { downUser := "bob" }) :=
  ⟨rfl,
   (unmapped_key_becomes_none_request wPiperPlain { downUser := "bob" }
      wMsgQuery wDownKey true none rfl rfl (Or.inl rfl)).1⟩

/-- Claim C9: when re-signing fails, the error lands in the err variable
shadowed inside the else block of `processAuthMsg`; the hook returns nil
message and nil error, so the step writes nothing upstream, reports no
error, and just blocks reading the next downstream request. -/
theorem signAgain_error_silently_swallowed :
    ∀ (piper : Piper) (pipe : PipeState) (msg : UserAuthRequestMsg)
      (downKey : PublicKey) (sig : Signature) (signer : Signer)
      (err : SshError),
      msg.method = "publickey" →
      parsePublicKeyMsg piper.parsePublicKey msg
        = .ok (downKey, false, some sig) →
      piper.mapPublicKey pipe.downUser downKey = .ok (some signer) →
      checkPublicKey pipe msg downKey sig = (true, none) →
      signAgain pipe msg signer downKey = (none, some err) →
      processAuthMsg piper pipe msg = (none, none, pipe)
      ∧ pipeAuthStep piper pipe msg = readNextDown pipe
      ∧ (pipeAuthStep piper pipe msg).state.up.written = pipe.up.written := by
  intro piper pipe msg downKey sig signer err hm hp hmap hchk hsign
  have hproc : processAuthMsg piper pipe msg = (none, none, pipe) := by
    simp [processAuthMsg, hm, hp, hmap, hchk, hsign]
  refine ⟨hproc, pipeAuthStep_of_none piper pipe msg pipe hproc, ?_⟩
  rw [pipeAuthStep_of_none piper pipe msg pipe hproc, readNextDown_up]

/-- Witness for C9: a concrete verified request whose backend signer fails
to sign; the hook yields nil message and nil error. -/
def wMsgSigned : UserAuthRequestMsg :=
  { user := "bob", service := serviceSSH, method := "publickey",
    payload := 1 :: (marshalName "ssh-rsa" ++ marshalString [1, 2, 3]
      ++ marshalString (marshalSignature { format := "ssh-rsa", blob := [4] })) }

def wPiperFailSign : Piper :=
  { parsePublicKey := fun _ => .ok wDownKey,
    findUpstream := fun _ => .error .openError,
    mapPublicKey := fun _ _ => .ok (some wFailSigner) }

theorem signAgain_error_silently_swallowed_witness :
    signAgain { downUser := "bob" } wMsgSigned wFailSigner wDownKey
      = (none, some (.signError "sign broken")) ∧
    processAuthMsg wPiperFailSign { downUser := "bob" } wMsgSigned
      = (none, none, { downUser := "bob" }) :=
  ⟨rfl,
   (signAgain_error_silently_swallowed wPiperFailSign { downUser := "bob" }
      wMsgSigned wDownKey { format := "ssh-rsa", blob := [4] } wFailSigner
      (.signError "sign broken") rfl rfl rfl rfl rfl).1⟩

/-- Decoding the big-endian length word recovers lengths below 2^32. -/
theorem u32be_decode (n : Nat) (h : n < 2 ^ 32) (tail : List Nat) :
    parseU32 (u32be n ++ tail) = some (n, tail) := by
  unfold u32be parseU32
  simp only [List.cons_append, List.nil_append]
  congr 1
  congr 1
  omega

/-- SSH string round-trip: parsing a marshalled string yields the bytes and
the remainder. -/
theorem parseString_marshalString (bs r : List Nat) (h : bs.length < 2 ^ 32) :
    parseString (marshalString bs ++ r) = some (bs, r) := by
  unfold parseString marshalString
  rw [List.append_assoc, u32be_decode bs.length h (bs ++ r)]
  simp [List.take_left, List.drop_left]

/-- A concrete request advertising an algorithm outside the accepted set. -/
def cexMsgBadAlgo : UserAuthRequestMsg :=
  { user := "bob", service := serviceSSH, method := "publickey",
    payload := 1 :: (marshalName "ssh-bogus" ++ marshalString [1, 2, 3]) }

/-- Counterexample to C3 as stated: for a request advertising the
unaccepted algorithm name "ssh-bogus", the rewriter does NOT return a
none-method request — `parsePublicKeyMsg` returns an error which the hook
propagates, and the pipeAuth step fails the session with it. -/
theorem bad_algo_name_is_fatal_cex :
    processAuthMsg wPiperPlain { downUser := "bob" } cexMsgBadAlgo
      = (none, some (.algoNotAccepted "ssh-bogus"), { downUser := "bob" })
    ∧ pipeAuthStep wPiperPlain { downUser := "bob" } cexMsgBadAlgo
      = .failed (.algoNotAccepted "ssh-bogus") { downUser := "bob" } :=
  ⟨rfl, rfl⟩

/-- Claim C3 (amended): a signature whose FORMAT is not in the accepted set
is treated as verification failure — `checkPublicKey` answers false with no
error and the rewriter returns a none-method request; but a request whose
ADVERTISED algorithm name is not accepted makes `parsePublicKeyMsg` return
an error, which the rewriter propagates and which fails the session. -/
theorem bad_algo_split_behavior :
    (∀ (pipe : PipeState) (msg : UserAuthRequestMsg) (key : PublicKey)
        (sig : Signature),
      isAcceptableAlgo sig.format = false →
      checkPublicKey pipe msg key sig = (false, none))
    ∧ (∀ (piper : Piper) (pipe : PipeState) (msg : UserAuthRequestMsg)
        (downKey : PublicKey) (sig : Signature) (signer : Signer),
      msg.method = "publickey" →
      parsePublicKeyMsg piper.parsePublicKey msg
        = .ok (downKey, false, some sig) →
      piper.mapPublicKey pipe.downUser downKey = .ok (some signer) →
      isAcceptableAlgo sig.format = false →
      processAuthMsg piper pipe msg
        = (some (noneAuthMsg msg.user), none, pipe))
    ∧ (∀ (parseKey : List Nat → Except SshError PublicKey)
        (req : UserAuthRequestMsg) (b : Nat) (abytes rest : List Nat),
      req.method = "publickey" →
      req.payload = b :: (marshalString abytes ++ rest) →
      abytes.length < 2 ^ 32 →
      isAcceptableAlgo (bytesToString abytes) = false →
      parsePublicKeyMsg parseKey req
        = .error (.algoNotAccepted (bytesToString abytes)))
    ∧ (∀ (piper : Piper) (pipe : PipeState) (msg : UserAuthRequestMsg)
        (m : Option UserAuthRequestMsg) (e : SshError) (p1 : PipeState),
      processAuthMsg piper pipe msg = (m, some e, p1) →
      pipeAuthStep piper pipe msg = .failed e p1) := by
  refine ⟨?_, ?_, ?_, pipeAuthStep_of_err⟩
  · intro pipe msg key sig h
    simp [checkPublicKey, h]
  · intro piper pipe msg downKey sig signer hm hp hmap hfmt
    have hchk : checkPublicKey pipe msg downKey sig = (false, none) := by
      simp [checkPublicKey, hfmt]
    simp [processAuthMsg, hm, hp, hmap, hchk]
  · intro parseKey req b abytes rest hm hpay hlen halgo
    unfold parsePublicKeyMsg
    rw [hpay]
    simp only [hm, List.length_cons, List.head?_cons, List.tail_cons,
      parseString_marshalString abytes rest hlen, halgo]
    simp

/-- Witness for C3 (amended): the concrete bad-format / bad-name inputs. -/
theorem bad_algo_split_behavior_witness :
    isAcceptableAlgo "ssh-bogus" = false ∧
    checkPublicKey { downUser := "bob" } wMsgSigned wDownKey
        { format := "ssh-bogus", blob := [4] } = (false, none) ∧
    parsePublicKeyMsg wPiperPlain.parsePublicKey cexMsgBadAlgo
      = .error (.algoNotAccepted (bytesToString (strBytes "ssh-bogus"))) :=
  ⟨by decide,
   bad_algo_split_behavior.1 { downUser := "bob" } wMsgSigned wDownKey
     { format := "ssh-bogus", blob := [4] } (by decide),
   bad_algo_split_behavior.2.2.1 wPiperPlain.parsePublicKey cexMsgBadAlgo 1
     (strBytes "ssh-bogus") (marshalString [1, 2, 3]) rfl rfl (by decide)
     (by decide)⟩

/-- A successful `challengePhase` with a configured challenger means the
challenger answered true for the recorded user. -/
theorem challengePhase_none_implies_ok (piper : Piper) (fuel : Nat)
    (d d2 : TransportState) (u : String)
    (chal : String → Except SshError Bool)
    (hchal : piper.additionalChallenge = some chal)
    (h : challengePhase piper fuel d u = (none, d2)) : chal u = .ok true := by
  unfold challengePhase at h
  rcases hcl : challengeLoop fuel d with ⟨e, dd⟩
  simp only [hchal, hcl] at h
  cases e with
  | some e => exact absurd h (by simp)
  | none =>
      cases hc : chal u with
      | error e => simp [hc] at h
      | ok b =>
          cases b
          · simp [hc] at h
          · rfl

/-- Claim C6: with an AdditionalChallenge configured, the coercion loop
writes only `USERAUTH_FAILURE` packets listing keyboard-interactive and
consumes downstream requests up to and including the first
keyboard-interactive one; FindUpstream is only ever invoked after the
callback returns true, and when the callback never returns true the session
fails without any upstream connection being obtained. -/
theorem coercion_and_challenge_gate :
    (∀ (fuel : Nat) (d d' : TransportState),
      challengeLoop fuel d = (none, d') →
      ∃ n, coercionSpec fuel d.toRead = some (n, d'.toRead)
        ∧ d'.written = d.written
            ++ List.replicate n (marshalUserAuthFailure ["keyboard-interactive"]))
    ∧ (∀ (piper : Piper) (fuel : Nat) (hs : Except SshError TransportState)
        (chal : String → Except SshError Bool),
      piper.additionalChallenge = some chal →
      (serve piper fuel hs).2.findCalled = true → ∃ u, chal u = .ok true)
    ∧ (∀ (piper : Piper) (fuel : Nat) (hs : Except SshError TransportState)
        (chal : String → Except SshError Bool),
      piper.additionalChallenge = some chal →
      (∀ u, chal u ≠ .ok true) →
      (serve piper fuel hs).1.isSome = true
        ∧ (serve piper fuel hs).2.findCalled = false
        ∧ (serve piper fuel hs).2.upObtained = false) := by
  refine ⟨?_, ?_, ?_⟩
  · intro fuel
    induction fuel with
    | zero =>
        intro d d' h
        exact absurd h (by simp [challengeLoop])
    | succ fuel ih =>
        intro d d' h
        unfold challengeLoop at h
        cases htr : d.toRead with
        | nil => simp [nextAuthMsg, writePacket, htr] at h
        | cons p rest =>
            simp only [nextAuthMsg, writePacket, htr] at h
            cases hp : parseAuthPacket p with
            | none => simp [hp] at h
            | some req =>
                simp only [hp] at h
                by_cases hsv : req.service ≠ serviceSSH
                · simp [hsv] at h
                · simp only [hsv, if_false, reduceIte] at h
                  by_cases hki : req.method = "keyboard-interactive"
                  · simp only [hki, if_true, reduceIte] at h
                    injection h with h1 h2
                    subst h2
                    refine ⟨1, ?_, ?_⟩
                    · simp [coercionSpec, hp, hsv, hki]
                    · simp
                  · simp only [hki, if_false, reduceIte] at h
                    obtain ⟨n, h1, h2⟩ := ih _ d' h
                    refine ⟨n + 1, ?_, ?_⟩
                    · simp only [coercionSpec, hp, hsv, hki]
                      simp at h1
                      simp [h1]
                    · simp at h2
                      rw [h2]
                      simp [List.replicate_succ]
  · intro piper fuel hs chal hchal
    cases hs with
    | error e => simp [serve, closeDown]
    | ok d =>
        unfold serve
        cases hn : nextAuthMsg d with
        | error e => simp [hn, closeDown]
        | ok v =>
            obtain ⟨req, d1⟩ := v
            rcases hcp : challengePhase piper fuel d1 req.user with ⟨e, d2⟩
            cases e with
            | some e => simp [hn, hcp, closeDown]
            | none =>
                intro _
                exact ⟨req.user,
                  challengePhase_none_implies_ok piper fuel d1 d2 req.user
                    chal hchal hcp⟩
  · intro piper fuel hs chal hchal hnever
    cases hs with
    | error e => simp [serve, closeDown]
    | ok d =>
        unfold serve
        cases hn : nextAuthMsg d with
        | error e => simp [hn, closeDown]
        | ok v =>
            obtain ⟨req, d1⟩ := v
            rcases hcp : challengePhase piper fuel d1 req.user with ⟨e, d2⟩
            cases e with
            | some e => simp [hn, hcp, closeDown]
            | none =>
                exact absurd
                  (challengePhase_none_implies_ok piper fuel d1 d2 req.user
                    chal hchal hcp)
                  (hnever req.user)

/-- A challenger that always refuses. -/
def wChalFalse : String → Except SshError Bool := fun _ => .ok false

def wPiperChalFalse : Piper :=
  { parsePublicKey := fun _ => .ok wDownKey,
    additionalChallenge := some wChalFalse,
    findUpstream := fun _ => .error .openError,
    mapPublicKey := fun _ _ => .ok none }

def wKiMsg : UserAuthRequestMsg :=
  { user := "carol", service := serviceSSH, method := "keyboard-interactive" }

/-- A downstream delivering a none request, then a keyboard-interactive
one. -/
def wChalDown : TransportState :=
  { sessionID := [6],
    toRead := [marshalUserAuthRequest wMsgNone, marshalUserAuthRequest wKiMsg] }

/-- Witness for C6: with a configured challenger that always answers false,
the session fails and FindUpstream is never invoked. -/
theorem coercion_and_challenge_gate_witness :
    wPiperChalFalse.additionalChallenge = some wChalFalse ∧
    (serve wPiperChalFalse 2 (.ok wChalDown)).1.isSome = true ∧
    (serve wPiperChalFalse 2 (.ok wChalDown)).2.findCalled = false ∧
    (serve wPiperChalFalse 2 (.ok wChalDown)).2.upObtained = false :=
  ⟨rfl, coercion_and_challenge_gate.2.2 wPiperChalFalse 2 (.ok wChalDown)
    wChalFalse rfl (fun u => by simp [wChalFalse])⟩

/-- An upstream transport that accepts the user-auth service and then
reports success to the first relayed request. -/
def c7Up : TransportState :=
  { sessionID := [5], toRead := [[msgServiceAccept], [msgUserAuthSuccess]] }

/-- A downstream whose single auth request is a none request. -/
def c7Down : TransportState :=
  { sessionID := [6], toRead := [marshalUserAuthRequest wMsgNone] }

def c7Piper : Piper :=
  { parsePublicKey := fun _ => .ok wDownKey,
    findUpstream := fun _ => .ok (.ok c7Up),
    mapPublicKey := fun _ _ => .ok none }

/-- Counterexample to C7 as stated: on the return path that goes through
the forwarding loop, each socket is closed twice — once by
`pipedConn.Close` inside `loop` and once by the deferred `Close` in
`Serve` — not exactly once. -/
theorem double_close_on_loop_path_cex :
    (serve c7Piper 2 (.ok c7Down)).2.enteredLoop = true
    ∧ (serve c7Piper 2 (.ok c7Down)).2.downCloses = 2
    ∧ (serve c7Piper 2 (.ok c7Down)).2.upCloses = 2 := by
  refine ⟨by decide, by decide, by decide⟩

/-- Claim C7 (amended): on every return path each socket that was opened is
closed at least once, and at most twice; the double close happens exactly
on the path that enters the forwarding loop (where `pipedConn.Close` and
the deferred Closes each fire); when `FindUpstream` never produced a
connection no upstream close happens, and when the upstream handshake
failed or the session ends before the forwarding loop the upstream is
closed exactly once. -/
theorem socket_close_counts :
    ∀ (piper : Piper) (fuel : Nat) (hs : Except SshError TransportState),
      1 ≤ (serve piper fuel hs).2.downCloses
      ∧ (serve piper fuel hs).2.downCloses ≤ 2
      ∧ ((serve piper fuel hs).2.downCloses = 2
          ↔ (serve piper fuel hs).2.enteredLoop = true)
      ∧ ((serve piper fuel hs).2.enteredLoop = true
          → (serve piper fuel hs).2.upCloses = 2)
      ∧ ((serve piper fuel hs).2.upObtained = false
          → (serve piper fuel hs).2.upCloses = 0)
      ∧ ((serve piper fuel hs).2.upObtained = true
            ∧ (serve piper fuel hs).2.upHandshakeOk = false
          → (serve piper fuel hs).2.upCloses = 1)
      ∧ ((serve piper fuel hs).2.upHandshakeOk = true
            ∧ (serve piper fuel hs).2.enteredLoop = false
          → (serve piper fuel hs).2.upCloses = 1) := by
  intro piper fuel hs
  cases hs with
  | error e => simp [serve, closeDown, closeUp]
  | ok d =>
      unfold serve
      cases hn : nextAuthMsg d with
      | error e => simp [hn, closeDown, closeUp]
      | ok v =>
          obtain ⟨req, d1⟩ := v
          rcases hcp : challengePhase piper fuel d1 req.user with ⟨ce, d2⟩
          cases ce with
          | some e => simp [hn, hcp, closeDown, closeUp]
          | none =>
              cases hf : piper.findUpstream req.user with
              | error e => simp [hn, hcp, hf, closeDown, closeUp]
              | ok upHs =>
                  cases upHs with
                  | error e => simp [hn, hcp, hf, closeDown, closeUp]
                  | ok u =>
                      rcases hpa : pipeAuth piper fuel
                          { up := u, down := d2, downUser := req.user }
                          req with ⟨pe, pipe⟩
                      cases pe with
                      | some e => simp [hn, hcp, hf, hpa, closeDown, closeUp]
                      | none => simp [hn, hcp, hf, hpa, closeDown, closeUp]

/-- Witness for C7 (amended): a run that never obtains an upstream has no
upstream close, and the loop run closes twice. -/
theorem socket_close_counts_witness :
    (serve wPiperPlain 1 (.error .readEOF)).2.upObtained = false
    ∧ (serve wPiperPlain 1 (.error .readEOF)).2.upCloses = 0 :=
  ⟨rfl, (socket_close_counts wPiperPlain 1 (.error .readEOF)).2.2.2.2.1 rfl⟩

/-- A publickey request with an empty payload. -/
def c8Msg : UserAuthRequestMsg :=
  { user := "bob", service := serviceSSH, method := "publickey",
    payload := [] }

/-- A downstream delivering only the empty-payload publickey request. -/
def c8Down : TransportState :=
  { sessionID := [6], toRead := [marshalUserAuthRequest c8Msg] }

/-- An upstream that accepts the user-auth service request. -/
def c8Up : TransportState :=
  { sessionID := [5], toRead := [[msgServiceAccept]] }

def c8Piper : Piper :=
  { parsePublicKey := fun _ => .ok wDownKey,
    findUpstream := fun _ => .ok (.ok c8Up),
    mapPublicKey := fun _ _ => .ok none }

/-- Claim C8: a publickey request with a zero-length payload is a parse
error (the length check precedes any indexing), the rewriter propagates it,
the step fails with it, and in a full run `Serve` returns that error with
both sides closed. -/
theorem empty_publickey_payload_fatal :
    (∀ (parseKey : List Nat → Except SshError PublicKey)
        (req : UserAuthRequestMsg),
      req.method = "publickey" → req.payload = [] →
      parsePublicKeyMsg parseKey req = .error (.parseError msgUserAuthRequest))
    ∧ (∀ (piper : Piper) (pipe : PipeState) (msg : UserAuthRequestMsg),
      msg.method = "publickey" → msg.payload = [] →
      processAuthMsg piper pipe msg
        = (none, some (.parseError msgUserAuthRequest), pipe)
      ∧ pipeAuthStep piper pipe msg
        = .failed (.parseError msgUserAuthRequest) pipe)
    ∧ ((serve c8Piper 2 (.ok c8Down)).1
        = some (.parseError msgUserAuthRequest)
      ∧ (serve c8Piper 2 (.ok c8Down)).2.downCloses = 1
      ∧ (serve c8Piper 2 (.ok c8Down)).2.upCloses = 1) := by
  have hparse : ∀ (parseKey : List Nat → Except SshError PublicKey)
      (req : UserAuthRequestMsg),
      req.method = "publickey" → req.payload = [] →
      parsePublicKeyMsg parseKey req
        = .error (.parseError msgUserAuthRequest) := by
    intro parseKey req hm hpay
    simp [parsePublicKeyMsg, hm, hpay]
  refine ⟨hparse, ?_, by decide, by decide, by decide⟩
  intro piper pipe msg hm hpay
  have hproc : processAuthMsg piper pipe msg
      = (none, some (.parseError msgUserAuthRequest), pipe) := by
    simp [processAuthMsg, hm, hparse piper.parsePublicKey msg hm hpay]
  exact ⟨hproc, pipeAuthStep_of_err piper pipe msg none _ pipe hproc⟩

/-- Witness for C8: the concrete empty-payload request. -/
theorem empty_publickey_payload_fatal_witness :
    c8Msg.payload = [] ∧
    processAuthMsg c8Piper { downUser := "bob" } c8Msg
      = (none, some (.parseError msgUserAuthRequest), { downUser := "bob" }) :=
  ⟨rfl, (empty_publickey_payload_fatal.2.1 c8Piper { downUser := "bob" }
    c8Msg rfl rfl).1⟩

/-- Claim C10: `check400` succeeds iff the file exists with permission bits
exactly 0400; any other mode — including 0000 and 0600 — errors, which
`mapPublicKeyFromUserfile` surfaces as a callback error (downgraded by the
rewriter to a none-method request) and which is fatal to the session when
it comes from `findUpstreamFromUserfile`. -/
theorem check400_userfile_gating :
    (∀ mode : Option Nat,
      check400 mode = none ↔ ∃ m, mode = some m ∧ m % 512 = 0o400)
    ∧ (check400 (some 0) ≠ none ∧ check400 (some 0o600) ≠ none
        ∧ check400 none ≠ none ∧ check400 (some 0o400) = none)
    ∧ (∀ (dir : UserDir) (key : PublicKey),
      check400 dir.authorizedKeysMode ≠ none →
      ∃ e, mapPublicKeyFromUserfile dir key = .error e)
    ∧ (∀ (piper : Piper) (pipe : PipeState) (msg : UserAuthRequestMsg)
        (downKey : PublicKey) (q : Bool) (sig : Option Signature)
        (dir : UserDir),
      msg.method = "publickey" →
      parsePublicKeyMsg piper.parsePublicKey msg = .ok (downKey, q, sig) →
      piper.mapPublicKey = (fun _ k => mapPublicKeyFromUserfile dir k) →
      check400 dir.authorizedKeysMode ≠ none →
      processAuthMsg piper pipe msg
        = (some (noneAuthMsg msg.user), none, pipe))
    ∧ (∀ dir : UserDir,
      check400 dir.upstreamMode ≠ none →
      ∃ e, findUpstreamFromUserfile dir = .error e)
    ∧ (∀ (piper : Piper) (fuel : Nat) (d d1 : TransportState)
        (req : UserAuthRequestMsg) (e : SshError),
      piper.additionalChallenge = none →
      nextAuthMsg d = .ok (req, d1) →
      piper.findUpstream req.user = .error e →
      (serve piper fuel (.ok d)).1 = some e
        ∧ (serve piper fuel (.ok d)).2.upObtained = false
        ∧ (serve piper fuel (.ok d)).2.upCloses = 0) := by
  have hmap : ∀ (dir : UserDir) (key : PublicKey),
      check400 dir.authorizedKeysMode ≠ none →
      ∃ e, mapPublicKeyFromUserfile dir key = .error e := by
    intro dir key h
    cases hc : check400 dir.authorizedKeysMode with
    | none => exact absurd hc h
    | some e => exact ⟨e, by simp [mapPublicKeyFromUserfile, hc]⟩
  refine ⟨?_, ⟨by decide, by decide, by decide, by decide⟩, hmap, ?_, ?_, ?_⟩
  · intro mode
    cases mode with
    | none => simp [check400]
    | some m =>
        by_cases h : m % 512 = 0o400 <;> simp [check400, h]
  · intro piper pipe msg downKey q sig dir hm hp hpiper hperm
    obtain ⟨e, he⟩ := hmap dir downKey hperm
    have hmape : piper.mapPublicKey pipe.downUser downKey = .error e := by
      rw [hpiper]
      exact he
    simp [processAuthMsg, hm, hp, hmape]
  · intro dir h
    cases hc : check400 dir.upstreamMode with
    | none => exact absurd hc h
    | some e => exact ⟨e, by simp [findUpstreamFromUserfile, hc]⟩
  · intro piper fuel d d1 req e hchal hn hf
    unfold serve
    have hcp : challengePhase piper fuel d1 req.user = (none, d1) := by
      simp [challengePhase, hchal]
    simp [hn, hcp, hf, closeDown]

/-- A user directory whose credential files have mode 0600. -/
def wDir600 : UserDir :=
  { authorizedKeysMode := some 0o600, upstreamMode := some 0o600 }

/-- Witness for C10: mode 0600 fails the check and both resolvers error. -/
theorem check400_userfile_gating_witness :
    check400 (some 0o600) ≠ none ∧
    (∃ e, mapPublicKeyFromUserfile wDir600 wDownKey = .error e) ∧
    (∃ e, findUpstreamFromUserfile wDir600 = .error e) :=
  ⟨by decide,
   check400_userfile_gating.2.2.1 wDir600 wDownKey (by decide),
   check400_userfile_gating.2.2.2.2.1 wDir600 (by decide)⟩

end Sshpiper
